import Mathlib

/-!
Verification of the three-variant Three.js image slider
(`ThreeImageSlider.tsx`, `ThreeImageSlider2.tsx`, `ThreeImageSlider3`):
aspect-ratio fitting, the tick-driven transition scheduler, image-index
advancement, and the per-variant fragment shading models, embedded
shallowly over ℚ (exact pipeline arithmetic) and ℝ (trigonometric shader
math).
-/

/-- Fit parameters for letterboxing/pillarboxing an image inside the
container, as returned by `calculateFitParams` (identical in all three
components). -/
structure FitParams where
  scaleX : ℚ
  scaleY : ℚ
  offsetX : ℚ
  offsetY : ℚ
  deriving DecidableEq

/-- `calculateFitParams` from `ThreeImageSlider.tsx` (lines 46-63; the same
function appears verbatim in the other two components): when the image is
relatively wider than the container the height is constrained, otherwise the
width. -/
def calculateFitParams (imageAspect containerAspect : ℚ) : FitParams :=
  if imageAspect > containerAspect then
    { scaleX := containerAspect / imageAspect, scaleY := 1, offsetX := 0, offsetY := 0 }
  else
    { scaleX := 1, scaleY := imageAspect / containerAspect, offsetX := 0, offsetY := 0 }

/-- C4: for positive aspect ratios, the wider-image branch constrains height
(`scaleY = 1`, `scaleX = c/a < 1`), the other branch constrains width
(`scaleX = 1`, `scaleY = a/c ≤ 1`), both scales lie in (0,1], and the offsets
are always zero.  (Determinism, totality and freedom from side effects hold
by construction: `calculateFitParams` is a total pure function.) -/
theorem calculateFitParams_branches (a c : ℚ) (ha : 0 < a) (hc : 0 < c) :
    (a > c → (calculateFitParams a c).scaleY = 1 ∧
      (calculateFitParams a c).scaleX = c / a ∧ (calculateFitParams a c).scaleX < 1) ∧
    (a ≤ c → (calculateFitParams a c).scaleX = 1 ∧
      (calculateFitParams a c).scaleY = a / c ∧ (calculateFitParams a c).scaleY ≤ 1) ∧
    (0 < (calculateFitParams a c).scaleX ∧ (calculateFitParams a c).scaleX ≤ 1) ∧
    (0 < (calculateFitParams a c).scaleY ∧ (calculateFitParams a c).scaleY ≤ 1) ∧
    (calculateFitParams a c).offsetX = 0 ∧ (calculateFitParams a c).offsetY = 0 := by
  rcases le_or_lt a c with hle | hgt
  · have hnot : ¬ a > c := not_lt.2 hle
    have e : calculateFitParams a c =
        { scaleX := 1, scaleY := a / c, offsetX := 0, offsetY := 0 } := by
      rw [calculateFitParams, if_neg hnot]
    rw [e]
    exact ⟨fun h => absurd h hnot, fun _ => ⟨rfl, rfl, (div_le_one hc).2 hle⟩,
      ⟨one_pos, le_refl 1⟩, ⟨div_pos ha hc, (div_le_one hc).2 hle⟩, rfl, rfl⟩
  · have e : calculateFitParams a c =
        { scaleX := c / a, scaleY := 1, offsetX := 0, offsetY := 0 } := by
      rw [calculateFitParams, if_pos hgt]
    rw [e]
    exact ⟨fun _ => ⟨rfl, rfl, (div_lt_one ha).2 hgt⟩,
      fun h => absurd hgt (not_lt.2 h),
      ⟨div_pos hc ha, le_of_lt ((div_lt_one ha).2 hgt)⟩, ⟨one_pos, le_refl 1⟩, rfl, rfl⟩

/-- C4 witness: the theorem instantiated at a = 2, c = 1. -/
theorem calculateFitParams_branches_witness :
    (0:ℚ) < 2 ∧ (0:ℚ) < 1 ∧
    ((2:ℚ) > 1 → (calculateFitParams 2 1).scaleY = 1 ∧
      (calculateFitParams 2 1).scaleX = 1 / 2 ∧ (calculateFitParams 2 1).scaleX < 1) :=
  ⟨by norm_num, by norm_num, (calculateFitParams_branches 2 1 (by norm_num) (by norm_num)).1⟩

/-- C3 counterexample: at imageAspect = containerAspect = 1 (both positive)
BOTH scales equal 1, so it is false that exactly one of scaleX/scaleY
equals 1. -/
theorem calculateFitParams_exactly_one_false :
    (0:ℚ) < 1 ∧
    (calculateFitParams 1 1).scaleX = 1 ∧ (calculateFitParams 1 1).scaleY = 1 ∧
    ¬ Xor' ((calculateFitParams 1 1).scaleX = 1) ((calculateFitParams 1 1).scaleY = 1) := by
  refine ⟨one_pos, rfl, by norm_num [calculateFitParams], ?_⟩
  rw [Xor']
  simp [calculateFitParams]

/-- C3 amended: for positive aspect ratios at least one of scaleX/scaleY
equals 1, both lie in (0,1], and exactly one equals 1 iff the two aspect
ratios differ (when they are equal both scales are 1). -/
theorem calculateFitParams_one_axis_unconstrained (a c : ℚ) (ha : 0 < a) (hc : 0 < c) :
    ((calculateFitParams a c).scaleX = 1 ∨ (calculateFitParams a c).scaleY = 1) ∧
    (0 < (calculateFitParams a c).scaleX ∧ (calculateFitParams a c).scaleX ≤ 1) ∧
    (0 < (calculateFitParams a c).scaleY ∧ (calculateFitParams a c).scaleY ≤ 1) ∧
    (Xor' ((calculateFitParams a c).scaleX = 1) ((calculateFitParams a c).scaleY = 1) ↔ a ≠ c) := by
  rcases lt_trichotomy a c with hlt | heq | hgt
  · have hnot : ¬ a > c := not_lt.2 hlt.le
    have e : calculateFitParams a c =
        { scaleX := 1, scaleY := a / c, offsetX := 0, offsetY := 0 } := by
      rw [calculateFitParams, if_neg hnot]
    rw [e]
    have hylt : a / c < 1 := (div_lt_one hc).2 hlt
    refine ⟨Or.inl rfl, ⟨one_pos, le_refl 1⟩, ⟨div_pos ha hc, hylt.le⟩, ?_⟩
    constructor
    · intro _; exact ne_of_lt hlt
    · intro _; exact Or.inl ⟨rfl, ne_of_lt hylt⟩
  · subst heq
    have hnot : ¬ a > a := lt_irrefl a
    have e : calculateFitParams a a =
        { scaleX := 1, scaleY := a / a, offsetX := 0, offsetY := 0 } := by
      rw [calculateFitParams, if_neg hnot]
    rw [e]
    have hone : a / a = 1 := div_self (ne_of_gt ha)
    refine ⟨Or.inl rfl, ⟨one_pos, le_refl 1⟩, ⟨by rw [hone]; exact one_pos, hone.le⟩, ?_⟩
    constructor
    · intro hx
      rcases hx with ⟨_, hy⟩ | ⟨_, hx⟩
      · exact absurd hone hy
      · exact absurd rfl hx
    · intro h; exact absurd rfl h
  · have e : calculateFitParams a c =
        { scaleX := c / a, scaleY := 1, offsetX := 0, offsetY := 0 } := by
      rw [calculateFitParams, if_pos hgt]
    rw [e]
    have hxlt : c / a < 1 := (div_lt_one ha).2 hgt
    refine ⟨Or.inr rfl, ⟨div_pos hc ha, hxlt.le⟩, ⟨one_pos, le_refl 1⟩, ?_⟩
    constructor
    · intro _; exact (ne_of_gt hgt)
    · intro _; exact Or.inr ⟨rfl, ne_of_lt hxlt⟩

/-- C3 amended witness: instantiated at a = 2, c = 1. -/
theorem calculateFitParams_one_axis_unconstrained_witness :
    (0:ℚ) < 2 ∧ (0:ℚ) < 1 ∧
    ((calculateFitParams 2 1).scaleX = 1 ∨ (calculateFitParams 2 1).scaleY = 1) :=
  ⟨by norm_num, by norm_num,
    (calculateFitParams_one_axis_unconstrained 2 1 (by norm_num) (by norm_num)).1⟩

/-- State of the auto-play/progress animation effect in
`ThreeImageSlider.tsx` (closure variables `start` and `isTransitioning`,
the `uProgress` uniform, and the React `index` state). -/
structure Sched1State where
  start : ℚ
  isTransitioning : Bool
  progress : ℚ
  index : ℕ
  deriving DecidableEq

/-- One invocation of `step` (`ThreeImageSlider.tsx` lines 231-255) at
timestamp `t`, with autoplay period `A` ms, crossfade duration `d` ms and
`n` images.  Returns the updated state together with the list of values
written to the `uProgress` uniform during the invocation (a completion tick
first writes `min(elapsed/d, 1)` and then 0, mirroring the two assignments
in the source). -/
def stepSlider1 (A d : ℚ) (n : ℕ) (s : Sched1State) (t : ℚ) : Sched1State × List ℚ :=
  let start0 := if s.start = 0 then t else s.start
  let elapsed := t - start0
  if s.isTransitioning then
    let progress := min (elapsed / d) 1
    if elapsed ≥ d then
      ({ start := t, isTransitioning := false, progress := 0,
         index := (s.index + 1) % n }, [progress, 0])
    else
      ({ s with start := start0, progress := progress }, [progress])
  else
    if elapsed ≥ A - d then
      ({ s with start := t, isTransitioning := true }, [])
    else
      ({ s with start := start0 }, [])

/-- `setIndex((i) => (i + 1) % images.length)`: the index update applied on
each completed transition. -/
def advanceIndex (n i : ℕ) : ℕ := (i + 1) % n

/-- The current image index after `k` completed transitions, starting from
`useState(0)`. -/
def indexAfter (n k : ℕ) : ℕ := (advanceIndex n)^[k] 0

lemma indexAfter_eq_mod (n k : ℕ) : indexAfter n k = k % n := by
  induction k with
  | zero => simp [indexAfter]
  | succ k ih =>
      rw [indexAfter, Function.iterate_succ_apply', ← indexAfter, ih,
        advanceIndex, Nat.mod_add_mod]

/-- C1: with `0 < d ≤ A`, the scheduler of `ThreeImageSlider.tsx` behaves as
a two-phase loop: a first idle tick records the phase start; idle ticks
leave the state (hence progress = 0) untouched while `elapsed < A - d` and
flip to Transitioning exactly when `elapsed ≥ A - d`; transitioning ticks
write `progress = min(elapsed/d, 1)`, monotonically non-decreasing in `t`;
and the tick with `elapsed ≥ d` writes the transient value 1, resets
progress to 0, advances the index exactly once and returns to Idle with the
phase clock restarted at `t` — so no phase is skipped and the machine
cycles forever. -/
theorem stepSlider1_cycle (A d : ℚ) (n : ℕ) (hd : 0 < d) (hdA : d ≤ A) :
    (∀ (s : Sched1State) (t : ℚ), s.isTransitioning = false → s.start = 0 → d < A →
      stepSlider1 A d n s t = ({ s with start := t }, [])) ∧
    (∀ (s : Sched1State) (t : ℚ), s.isTransitioning = false → s.start ≠ 0 →
      t - s.start < A - d → stepSlider1 A d n s t = (s, [])) ∧
    (∀ (s : Sched1State) (t : ℚ), s.isTransitioning = false → s.start ≠ 0 →
      A - d ≤ t - s.start →
      stepSlider1 A d n s t = ({ s with start := t, isTransitioning := true }, [])) ∧
    (∀ (s : Sched1State) (t : ℚ), s.isTransitioning = true → s.start ≠ 0 →
      t - s.start < d →
      stepSlider1 A d n s t =
        ({ s with progress := min ((t - s.start) / d) 1 }, [min ((t - s.start) / d) 1]) ∧
      (0 ≤ t - s.start → min ((t - s.start) / d) 1 = (t - s.start) / d)) ∧
    (∀ (s : Sched1State) (t₁ t₂ : ℚ), s.isTransitioning = true → s.start ≠ 0 →
      t₁ ≤ t₂ → t₂ - s.start < d →
      (stepSlider1 A d n s t₁).1.progress ≤ (stepSlider1 A d n s t₂).1.progress) ∧
    (∀ (s : Sched1State) (t : ℚ), s.isTransitioning = true → s.start ≠ 0 →
      d ≤ t - s.start →
      stepSlider1 A d n s t =
        ({ start := t, isTransitioning := false, progress := 0,
           index := (s.index + 1) % n }, [1, 0])) := by
  have hmin : ∀ s t : ℚ, d ≤ t - s → min ((t - s) / d) 1 = 1 := by
    intro s t h
    exact min_eq_right ((one_le_div hd).2 h)
  refine ⟨?_, ?_, ?_, ?_, ?_, ?_⟩
  · rintro ⟨st, tr, pr, ix⟩ t hs hs0 hlt
    dsimp only at hs hs0
    subst hs; subst hs0
    simp [stepSlider1]
    linarith
  · rintro ⟨st, tr, pr, ix⟩ t hs hs0 hlt
    dsimp only at hs hs0 hlt
    subst hs
    simp [stepSlider1, hs0, not_le.2 hlt]
  · rintro ⟨st, tr, pr, ix⟩ t hs hs0 hge
    dsimp only at hs hs0 hge
    subst hs
    simp [stepSlider1, hs0, hge]
  · rintro ⟨st, tr, pr, ix⟩ t hs hs0 hlt
    dsimp only at hs hs0 hlt
    subst hs
    refine ⟨?_, fun hnn => min_eq_left ((div_le_one hd).2 hlt.le)⟩
    simp [stepSlider1, hs0, not_le.2 hlt]
  · rintro ⟨st, tr, pr, ix⟩ t₁ t₂ hs hs0 h12 hlt2
    dsimp only at hs hs0 hlt2
    subst hs
    have hlt1 : t₁ - st < d := by linarith
    have h1 : (stepSlider1 A d n ⟨st, true, pr, ix⟩ t₁).1.progress =
        min ((t₁ - st) / d) 1 := by
      simp [stepSlider1, hs0, not_le.2 hlt1]
    have h2 : (stepSlider1 A d n ⟨st, true, pr, ix⟩ t₂).1.progress =
        min ((t₂ - st) / d) 1 := by
      simp [stepSlider1, hs0, not_le.2 hlt2]
    rw [h1, h2]
    refine min_le_min ?_ le_rfl
    gcongr
  · rintro ⟨st, tr, pr, ix⟩ t hs hs0 hge
    dsimp only at hs hs0 hge
    subst hs
    simp [stepSlider1, hs0, hge, hmin st t hge]

/-- C1 witness: at A = 4000, d = 1000, n = 3, an idle tick at t = 200 with
phase start 100 (elapsed 100 < 3000) leaves the state unchanged and writes
nothing to uProgress. -/
theorem stepSlider1_cycle_witness :
    (0:ℚ) < 1000 ∧ (1000:ℚ) ≤ 4000 ∧
    stepSlider1 4000 1000 3 ⟨100, false, 0, 0⟩ 200 = (⟨100, false, 0, 0⟩, []) :=
  ⟨by norm_num, by norm_num,
    (stepSlider1_cycle 4000 1000 3 (by norm_num) (by norm_num)).2.1
      ⟨100, false, 0, 0⟩ 200 rfl (by norm_num) (by norm_num)⟩

/-- C2: starting from index 0, after `k` completed transitions the current
index is `k % n`; with a single image (`n = 1`) the index stays 0; and a
completion tick of the scheduler applies exactly one `advanceIndex` (modulo
`n`, so there is no division/modulo-by-zero failure for `n ≥ 1`) while
still completing its cycle (it returns to Idle with progress 0). -/
theorem indexAfter_mod (n : ℕ) (hn : 1 ≤ n) :
    (∀ k, indexAfter n k = k % n) ∧
    (∀ k, indexAfter 1 k = 0) ∧
    (∀ (A d : ℚ) (s : Sched1State) (t : ℚ), 0 < d → s.isTransitioning = true →
      s.start ≠ 0 → d ≤ t - s.start →
      (stepSlider1 A d n s t).1.index = advanceIndex n s.index ∧
      (stepSlider1 A d n s t).1.isTransitioning = false ∧
      (stepSlider1 A d n s t).1.progress = 0) := by
  refine ⟨fun k => indexAfter_eq_mod n k, fun k => ?_, ?_⟩
  · rw [indexAfter_eq_mod, Nat.mod_one]
  · rintro A d ⟨st, tr, pr, ix⟩ t hd hs hs0 hge
    dsimp only at hs hs0 hge
    subst hs
    refine ⟨?_, ?_, ?_⟩ <;> simp [stepSlider1, hs0, hge, advanceIndex]

/-- C2 witness: at n = 3, after 7 completed transitions the index is
7 % 3 = 1. -/
theorem indexAfter_mod_witness :
    1 ≤ 3 ∧ indexAfter 3 7 = 7 % 3 :=
  ⟨by norm_num, (indexAfter_mod 3 (by norm_num)).1 7⟩

/-- GLSL `vec2` over ℚ, for the exact (non-trigonometric) shader paths. -/
@[ext]
structure Vec2Q where
  x : ℚ
  y : ℚ
  deriving DecidableEq

/-- GLSL `vec4` RGBA color over ℚ. -/
@[ext]
structure Vec4Q where
  r : ℚ
  g : ℚ
  b : ℚ
  a : ℚ
  deriving DecidableEq

/-- GLSL `smoothstep(e0, e1, x)`: clamp then cubic Hermite. -/
def smoothstepQ (e0 e1 x : ℚ) : ℚ :=
  let t := max 0 (min 1 ((x - e0) / (e1 - e0)))
  t * t * (3 - 2 * t)

/-- GLSL scalar `mix(a, b, t) = a*(1-t) + b*t`. -/
def mixQ (a b t : ℚ) : ℚ := a * (1 - t) + b * t

/-- GLSL componentwise `mix` on vec4. -/
def mix4 (c1 c2 : Vec4Q) (t : ℚ) : Vec4Q :=
  ⟨mixQ c1.r c2.r t, mixQ c1.g c2.g t, mixQ c1.b c2.b t, mixQ c1.a c2.a t⟩

/-- The shared UV remap `(uv - 0.5) * scale + 0.5 + offset` of all three
fragment shaders. -/
def fitUV (uv scale offset : Vec2Q) : Vec2Q :=
  ⟨(uv.x - 1/2) * scale.x + 1/2 + offset.x,
   (uv.y - 1/2) * scale.y + 1/2 + offset.y⟩

/-- Fragment shader of the crossfade variant (`ThreeImageSlider.tsx` lines
118-143), with texture sampling abstracted as functions from UV to color. -/
def crossfadeFrag (tex1 tex2 : Vec2Q → Vec4Q) (scale1 offset1 scale2 offset2 : Vec2Q)
    (progress : ℚ) (uv : Vec2Q) : Vec4Q :=
  let uv1 := fitUV uv scale1 offset1
  let uv2 := fitUV uv scale2 offset2
  let c1 := tex1 uv1
  let c2 := tex2 uv2
  mix4 c1 c2 (smoothstepQ 0 1 progress)

lemma smoothstepQ_zero : smoothstepQ 0 1 0 = 0 := by
  simp [smoothstepQ]

lemma smoothstepQ_one : smoothstepQ 0 1 1 = 1 := by
  norm_num [smoothstepQ]

lemma smoothstepQ_mem_unit (p : ℚ) : 0 ≤ smoothstepQ 0 1 p ∧ smoothstepQ 0 1 p ≤ 1 := by
  have h0 : 0 ≤ max 0 (min 1 ((p - 0) / (1 - 0))) := le_max_left 0 _
  have h1 : max 0 (min 1 ((p - 0) / (1 - 0))) ≤ 1 := max_le (by norm_num) (min_le_left 1 _)
  simp only [smoothstepQ]
  generalize max 0 (min 1 ((p - 0) / (1 - 0))) = t at h0 h1 ⊢
  have key : 0 ≤ (1 - t) ^ 2 * (1 + 2 * t) :=
    mul_nonneg (sq_nonneg (1 - t)) (by linarith)
  constructor
  · nlinarith
  · nlinarith [key]

lemma mixQ_bounds (a b t : ℚ) (h0 : 0 ≤ t) (h1 : t ≤ 1) :
    min a b ≤ mixQ a b t ∧ mixQ a b t ≤ max a b := by
  unfold mixQ
  rcases le_total a b with h | h
  · rw [min_eq_left h, max_eq_right h]
    constructor <;> nlinarith
  · rw [min_eq_right h, max_eq_left h]
    constructor <;> nlinarith

/-- C5: the crossfade output is exactly
`mix(sample(current, uv1), sample(next, uv2), smoothstep(0,1,progress))`
over the fit-adjusted UVs; at progress 0 it equals the current sample, at
progress 1 the next sample, and for progress in [0,1] every output channel
lies between the two endpoint samples' corresponding channels. -/
theorem crossfadeFrag_spec (tex1 tex2 : Vec2Q → Vec4Q)
    (s1 o1 s2 o2 : Vec2Q) (p : ℚ) (uv : Vec2Q) (hp0 : 0 ≤ p) (hp1 : p ≤ 1) :
    crossfadeFrag tex1 tex2 s1 o1 s2 o2 p uv =
      mix4 (tex1 (fitUV uv s1 o1)) (tex2 (fitUV uv s2 o2)) (smoothstepQ 0 1 p) ∧
    (p = 0 → crossfadeFrag tex1 tex2 s1 o1 s2 o2 p uv = tex1 (fitUV uv s1 o1)) ∧
    (p = 1 → crossfadeFrag tex1 tex2 s1 o1 s2 o2 p uv = tex2 (fitUV uv s2 o2)) ∧
    (min (tex1 (fitUV uv s1 o1)).r (tex2 (fitUV uv s2 o2)).r ≤
        (crossfadeFrag tex1 tex2 s1 o1 s2 o2 p uv).r ∧
      (crossfadeFrag tex1 tex2 s1 o1 s2 o2 p uv).r ≤
        max (tex1 (fitUV uv s1 o1)).r (tex2 (fitUV uv s2 o2)).r) ∧
    (min (tex1 (fitUV uv s1 o1)).g (tex2 (fitUV uv s2 o2)).g ≤
        (crossfadeFrag tex1 tex2 s1 o1 s2 o2 p uv).g ∧
      (crossfadeFrag tex1 tex2 s1 o1 s2 o2 p uv).g ≤
        max (tex1 (fitUV uv s1 o1)).g (tex2 (fitUV uv s2 o2)).g) ∧
    (min (tex1 (fitUV uv s1 o1)).b (tex2 (fitUV uv s2 o2)).b ≤
        (crossfadeFrag tex1 tex2 s1 o1 s2 o2 p uv).b ∧
      (crossfadeFrag tex1 tex2 s1 o1 s2 o2 p uv).b ≤
        max (tex1 (fitUV uv s1 o1)).b (tex2 (fitUV uv s2 o2)).b) ∧
    (min (tex1 (fitUV uv s1 o1)).a (tex2 (fitUV uv s2 o2)).a ≤
        (crossfadeFrag tex1 tex2 s1 o1 s2 o2 p uv).a ∧
      (crossfadeFrag tex1 tex2 s1 o1 s2 o2 p uv).a ≤
        max (tex1 (fitUV uv s1 o1)).a (tex2 (fitUV uv s2 o2)).a) := by
  have hs := smoothstepQ_mem_unit p
  refine ⟨rfl, ?_, ?_, ?_, ?_, ?_, ?_⟩
  · rintro rfl
    show mix4 _ _ (smoothstepQ 0 1 0) = _
    rw [smoothstepQ_zero]
    ext <;> simp [mix4, mixQ]
  · rintro rfl
    show mix4 _ _ (smoothstepQ 0 1 1) = _
    rw [smoothstepQ_one]
    ext <;> simp [mix4, mixQ]
  · exact mixQ_bounds _ _ _ hs.1 hs.2
  · exact mixQ_bounds _ _ _ hs.1 hs.2
  · exact mixQ_bounds _ _ _ hs.1 hs.2
  · exact mixQ_bounds _ _ _ hs.1 hs.2

/-- C5 witness: at progress 1/2 with constant black and white textures, the
output equals the smoothstep-weighted mix of the two samples. -/
theorem crossfadeFrag_spec_witness :
    (0:ℚ) ≤ 1/2 ∧ (1/2:ℚ) ≤ 1 ∧
    crossfadeFrag (fun _ => ⟨0, 0, 0, 1⟩) (fun _ => ⟨1, 1, 1, 1⟩)
        ⟨1, 1⟩ ⟨0, 0⟩ ⟨1, 1⟩ ⟨0, 0⟩ (1/2) ⟨1/2, 1/2⟩ =
      mix4 ⟨0, 0, 0, 1⟩ ⟨1, 1, 1, 1⟩ (smoothstepQ 0 1 (1/2)) :=
  ⟨by norm_num, by norm_num,
    (crossfadeFrag_spec (fun _ => ⟨0, 0, 0, 1⟩) (fun _ => ⟨1, 1, 1, 1⟩)
      ⟨1, 1⟩ ⟨0, 0⟩ ⟨1, 1⟩ ⟨0, 0⟩ (1/2) ⟨1/2, 1/2⟩ (by norm_num) (by norm_num)).1⟩

/-- GLSL `vec2` over ℝ, for the trigonometric shader paths. -/
@[ext]
structure Vec2R where
  x : ℝ
  y : ℝ

/-- GLSL `vec4` RGBA color over ℝ. -/
@[ext]
structure Vec4R where
  r : ℝ
  g : ℝ
  b : ℝ
  a : ℝ

/-- Componentwise vector addition (GLSL `+` on vec2). -/
def addV2 (u v : Vec2R) : Vec2R := ⟨u.x + v.x, u.y + v.y⟩

/-- GLSL scalar `mix` over ℝ. -/
noncomputable def mixR (a b t : ℝ) : ℝ := a * (1 - t) + b * t

/-- GLSL componentwise `mix` on vec4 over ℝ. -/
noncomputable def mix4R (c1 c2 : Vec4R) (t : ℝ) : Vec4R :=
  ⟨mixR c1.r c2.r t, mixR c1.g c2.g t, mixR c1.b c2.b t, mixR c1.a c2.a t⟩

/-- GLSL `smoothstep` over ℝ. -/
noncomputable def smoothstepR (e0 e1 x : ℝ) : ℝ :=
  let t := max 0 (min 1 ((x - e0) / (e1 - e0)))
  t * t * (3 - 2 * t)

/-- The shared UV remap over ℝ. -/
noncomputable def fitUVR (uv scale offset : Vec2R) : Vec2R :=
  ⟨(uv.x - 1/2) * scale.x + 1/2 + offset.x,
   (uv.y - 1/2) * scale.y + 1/2 + offset.y⟩

/-- `easeInOutSine` from the noise-warp shader (part_000 lines 196-198):
`-0.5 * (cos(3.14159 * t) - 1)`.  Note the shader uses the literal
`3.14159`, not π. -/
noncomputable def easeInOutSine (t : ℝ) : ℝ := -0.5 * (Real.cos (3.14159 * t) - 1)

/-- The shaped displacement strength of the noise-warp shader (part_000
lines 247-249): `easeInOutSine(sin(uProgress * 3.14159)) * maxStrength`
with `maxStrength = 0.4`. -/
noncomputable def displacementStrength (p : ℝ) : ℝ :=
  easeInOutSine (Real.sin (p * 3.14159)) * 0.4

/-- The per-pixel displacement `vec2(noise) * uNoiseIntensity *
displacementStrength` (part_000 line 250), with the fbm noise sample
abstracted as the input `noise`; both components are equal. -/
noncomputable def noiseDisplacement (noise intensity p : ℝ) : Vec2R :=
  ⟨noise * intensity * displacementStrength p,
   noise * intensity * displacementStrength p⟩

/-- Fragment shader `main()` of the noise-warp variant (part_000 lines
238-264), with the fbm noise value abstracted as the input `noise`. -/
noncomputable def noiseWarpFrag (tex1 tex2 : Vec2R → Vec4R)
    (s1 o1 s2 o2 : Vec2R) (noise intensity p : ℝ) (uv : Vec2R) : Vec4R :=
  let displacement := noiseDisplacement noise intensity p
  let uv1 := fitUVR uv s1 o1
  let distortedUV1 := addV2 uv1 displacement
  let uv2 := fitUVR uv s2 o2
  let distortedUV2 := addV2 uv2 displacement
  mix4R (tex1 distortedUV1) (tex2 distortedUV2) (smoothstepR 0 1 p)

lemma piApprox_lt_pi : (3.14159 : ℝ) < Real.pi :=
  lt_trans (by norm_num) Real.pi_gt_d6

lemma cos_lt_one_of_pos_of_le_pi {x : ℝ} (hx : 0 < x) (hxpi : x ≤ Real.pi) :
    Real.cos x < 1 := by
  have h := Real.strictAntiOn_cos (Set.left_mem_Icc.2 Real.pi_pos.le) ⟨hx.le, hxpi⟩ hx
  rwa [Real.cos_zero] at h

lemma easeInOutSine_mono_le {s1 s2 : ℝ} (h0 : 0 ≤ s1) (h12 : s1 ≤ s2) (h2 : s2 ≤ 1) :
    easeInOutSine s1 ≤ easeInOutSine s2 := by
  have hm1 : (3.14159:ℝ) * s1 ∈ Set.Icc 0 Real.pi := by
    constructor
    · exact mul_nonneg (by norm_num) h0
    · nlinarith [piApprox_lt_pi]
  have hm2 : (3.14159:ℝ) * s2 ∈ Set.Icc 0 Real.pi := by
    constructor
    · exact mul_nonneg (by norm_num) (le_trans h0 h12)
    · nlinarith [piApprox_lt_pi]
  have hc : Real.cos (3.14159 * s2) ≤ Real.cos (3.14159 * s1) :=
    Real.strictAntiOn_cos.antitoneOn hm1 hm2 (by nlinarith)
  unfold easeInOutSine
  linarith

lemma easeInOutSine_strict_lt {s1 s2 : ℝ} (h0 : 0 ≤ s1) (h12 : s1 < s2) (h2 : s2 ≤ 1) :
    easeInOutSine s1 < easeInOutSine s2 := by
  have hm1 : (3.14159:ℝ) * s1 ∈ Set.Icc 0 Real.pi := by
    constructor
    · exact mul_nonneg (by norm_num) h0
    · nlinarith [piApprox_lt_pi]
  have hm2 : (3.14159:ℝ) * s2 ∈ Set.Icc 0 Real.pi := by
    constructor
    · exact mul_nonneg (by norm_num) (le_trans h0 h12.le)
    · nlinarith [piApprox_lt_pi]
  have hc : Real.cos (3.14159 * s2) < Real.cos (3.14159 * s1) :=
    Real.strictAntiOn_cos hm1 hm2 (by nlinarith)
  unfold easeInOutSine
  linarith

lemma sin_peak_arg : Real.sin (Real.pi / (2 * 3.14159) * 3.14159) = 1 := by
  have h : Real.pi / (2 * 3.14159) * 3.14159 = Real.pi / 2 := by
    field_simp
    ring
  rw [h, Real.sin_pi_div_two]

lemma displacementStrength_zero : displacementStrength 0 = 0 := by
  unfold displacementStrength easeInOutSine
  rw [zero_mul, Real.sin_zero, mul_zero, Real.cos_zero]
  ring

lemma displacementStrength_one_pos : 0 < displacementStrength 1 := by
  unfold displacementStrength easeInOutSine
  rw [one_mul]
  have hsp : 0 < Real.sin 3.14159 :=
    Real.sin_pos_of_pos_of_lt_pi (by norm_num) piApprox_lt_pi
  have hs1 : Real.sin 3.14159 ≤ 1 := Real.sin_le_one _
  have hargpos : (0:ℝ) < 3.14159 * Real.sin 3.14159 := by positivity
  have hargle : (3.14159:ℝ) * Real.sin 3.14159 ≤ Real.pi := by
    nlinarith [piApprox_lt_pi]
  have hcos := cos_lt_one_of_pos_of_le_pi hargpos hargle
  nlinarith [hcos]

lemma displacementStrength_le_peak {p : ℝ} (hp0 : 0 ≤ p) (hp1 : p ≤ 1) :
    displacementStrength p ≤ displacementStrength (Real.pi / (2 * 3.14159)) := by
  unfold displacementStrength
  rw [sin_peak_arg]
  have hple : p * 3.14159 ≤ Real.pi := by nlinarith [piApprox_lt_pi]
  have hs0 : 0 ≤ Real.sin (p * 3.14159) :=
    Real.sin_nonneg_of_nonneg_of_le_pi (by positivity) hple
  have hs1 : Real.sin (p * 3.14159) ≤ 1 := Real.sin_le_one _
  have h := easeInOutSine_mono_le hs0 hs1 le_rfl
  nlinarith [h]

lemma displacementStrength_half_lt_peak :
    displacementStrength (1/2) < displacementStrength (Real.pi / (2 * 3.14159)) := by
  unfold displacementStrength
  rw [sin_peak_arg]
  have harg : (1/2 : ℝ) * 3.14159 = 1.570795 := by norm_num
  rw [harg]
  have hpi := Real.pi_gt_d6
  have hlt : (1.570795 : ℝ) < Real.pi / 2 := by linarith
  have hmem1 : (1.570795:ℝ) ∈ Set.Icc (-(Real.pi/2)) (Real.pi/2) :=
    ⟨by nlinarith [Real.pi_pos], hlt.le⟩
  have hmem2 : Real.pi/2 ∈ Set.Icc (-(Real.pi/2)) (Real.pi/2) :=
    ⟨by nlinarith [Real.pi_pos], le_rfl⟩
  have hsin : Real.sin 1.570795 < 1 := by
    have h := Real.strictMonoOn_sin hmem1 hmem2 hlt
    rwa [Real.sin_pi_div_two] at h
  have hs0 : 0 ≤ Real.sin 1.570795 :=
    Real.sin_nonneg_of_nonneg_of_le_pi (by norm_num) (by linarith)
  have h := easeInOutSine_strict_lt hs0 hsin le_rfl
  nlinarith [h]

/-- C6 counterexample: at progress = 1 with noise = 1 and noiseIntensity = 1
the displacement vector of the noise-warp shader is NOT zero — the shader
computes `sin(1 * 3.14159) > 0` because 3.14159 < π, so the claimed
"magnitude is 0 at progress = 1" fails. -/
theorem noiseDisplacement_progress_one_ne_zero :
    (noiseDisplacement 1 1 1).x ≠ 0 ∧ (noiseDisplacement 1 1 1).y ≠ 0 := by
  have h := displacementStrength_one_pos
  constructor <;>
    · simp only [noiseDisplacement, one_mul]
      exact ne_of_gt h

/-- C6 amended: the noise-warp displacement equals
`noise * noiseIntensity * easeInOutSine(sin(progress * 3.14159)) * 0.4`,
the same vector is added to both images' fit-adjusted UVs, its value is 0
at progress = 0 but (because the shader uses 3.14159 rather than π) it is
nonzero at progress = 1 whenever `noise * noiseIntensity ≠ 0`, the shaped
strength attains its maximum over [0,1] at progress = π/(2·3.14159)
(≈ 0.5000004, not exactly 0.5, where the strength at 0.5 is strictly
smaller), and the final color is the smoothstep(0,1,progress)-weighted
lerp of the two distorted samples. -/
theorem noiseWarpFrag_spec (tex1 tex2 : Vec2R → Vec4R) (s1 o1 s2 o2 : Vec2R)
    (noise intensity p : ℝ) (uv : Vec2R) (hp0 : 0 ≤ p) (hp1 : p ≤ 1) :
    noiseWarpFrag tex1 tex2 s1 o1 s2 o2 noise intensity p uv =
      mix4R (tex1 (addV2 (fitUVR uv s1 o1) (noiseDisplacement noise intensity p)))
        (tex2 (addV2 (fitUVR uv s2 o2) (noiseDisplacement noise intensity p)))
        (smoothstepR 0 1 p) ∧
    (noiseDisplacement noise intensity p).x =
      noise * intensity * (easeInOutSine (Real.sin (p * 3.14159)) * 0.4) ∧
    (noiseDisplacement noise intensity p).y = (noiseDisplacement noise intensity p).x ∧
    noiseDisplacement noise intensity 0 = ⟨0, 0⟩ ∧
    (noise * intensity ≠ 0 → (noiseDisplacement noise intensity 1).x ≠ 0) ∧
    displacementStrength p ≤ displacementStrength (Real.pi / (2 * 3.14159)) ∧
    displacementStrength (1/2) < displacementStrength (Real.pi / (2 * 3.14159)) := by
  refine ⟨rfl, rfl, rfl, ?_, ?_, displacementStrength_le_peak hp0 hp1,
    displacementStrength_half_lt_peak⟩
  · ext <;> simp [noiseDisplacement, displacementStrength_zero]
  · intro h
    simp only [noiseDisplacement]
    exact mul_ne_zero h (ne_of_gt displacementStrength_one_pos)

/-- C6 amended witness: at noise = 2, intensity = 3, progress = 0 the
displacement is the zero vector. -/
theorem noiseWarpFrag_spec_witness :
    (0:ℝ) ≤ 0 ∧ (0:ℝ) ≤ 1 ∧ noiseDisplacement 2 3 0 = ⟨0, 0⟩ :=
  ⟨le_refl 0, by norm_num,
    (noiseWarpFrag_spec (fun _ => ⟨0, 0, 0, 0⟩) (fun _ => ⟨0, 0, 0, 0⟩)
      ⟨1, 1⟩ ⟨0, 0⟩ ⟨1, 1⟩ ⟨0, 0⟩ 2 3 0 ⟨0, 0⟩ (le_refl 0) (by norm_num)).2.2.2.1⟩

/-- Scalar-scaled vec2 (GLSL `v * k`). -/
noncomputable def smulV2 (v : Vec2R) (k : ℝ) : Vec2R := ⟨v.x * k, v.y * k⟩

/-- GLSL `getRotM(angle)` (`ThreeImageSlider2.tsx` lines 175-179) applied
to a vector: `mat2(c, -s, s, c) * v` with GLSL column-major layout, i.e.
`(c*vx + s*vy, -s*vx + c*vy)`. -/
noncomputable def getRotM (angle : ℝ) (v : Vec2R) : Vec2R :=
  ⟨Real.cos angle * v.x + Real.sin angle * v.y,
   -Real.sin angle * v.x + Real.cos angle * v.y⟩

/-- Fragment shader of the directional-displacement variant
(`ThreeImageSlider2.tsx` lines 156-197): `disp` is the displacement
texture, whose red and green channels form the displacement vector. -/
noncomputable def slider2Frag (texture1 texture2 disp : Vec2R → Vec4R)
    (s1 o1 s2 o2 : Vec2R) (intensity1 intensity2 angle1 angle2 dispFactor : ℝ)
    (uv : Vec2R) : Vec4R :=
  let dispTex := disp uv
  let dispVec : Vec2R := ⟨dispTex.r, dispTex.g⟩
  let uv1 := fitUVR uv s1 o1
  let distortedPosition1 :=
    addV2 uv1 (smulV2 (smulV2 (getRotM angle1 dispVec) intensity1) dispFactor)
  let uv2 := fitUVR uv s2 o2
  let distortedPosition2 :=
    addV2 uv2 (smulV2 (smulV2 (getRotM angle2 dispVec) intensity2) (1 - dispFactor))
  mix4R (texture1 distortedPosition1) (texture2 distortedPosition2) dispFactor

/-- Effective `angle1` uniform of `ThreeImageSlider2.tsx` (line 104):
`angle1 ?? angle`. -/
noncomputable def effAngle1 (angle : ℝ) (angle1 : Option ℝ) : ℝ := angle1.getD angle

/-- Effective `angle2` uniform of `ThreeImageSlider2.tsx` (line 105):
`angle2 ?? -angle * 3` — the default is derived from the base `angle` prop,
NOT from the effective angle1. -/
noncomputable def effAngle2 (angle : ℝ) (angle2 : Option ℝ) : ℝ := angle2.getD (-angle * 3)

/-- C7 counterexample: with base angle 1 and `angle1` supplied as 2 but
`angle2` unsupplied, the effective angle2 is `-1 * 3 = -3`, which is not
`-3 * angle1 = -6`: the default is -3 times the base `angle` prop, not -3
times angle1. -/
theorem effAngle2_default_counterexample :
    effAngle2 1 none ≠ -3 * effAngle1 1 (some 2) := by
  simp only [effAngle1, effAngle2, Option.getD_none, Option.getD_some]
  norm_num

/-- C7 amended: each image's sampling UV is offset by
`rotate(angle_i) * dispVec * intensity_i * mix_i(progress)` with
`mix_current = dispFactor` and `mix_next = 1 - dispFactor`, the final color
is the linear (weight exactly `dispFactor`, not smoothstepped) mix of the
two distorted samples, and — when not supplied — `angle2` defaults to
`-angle * 3` where `angle` is the base prop; this coincides with
`-3 * angle1` exactly when `angle1` is not supplied either (angle1 then
defaults to `angle`). -/
theorem slider2Frag_spec (texture1 texture2 disp : Vec2R → Vec4R)
    (s1 o1 s2 o2 : Vec2R) (i1 i2 a1 a2 p : ℝ) (uv : Vec2R) :
    slider2Frag texture1 texture2 disp s1 o1 s2 o2 i1 i2 a1 a2 p uv =
      mix4R
        (texture1 (addV2 (fitUVR uv s1 o1)
          (smulV2 (smulV2 (getRotM a1 ⟨(disp uv).r, (disp uv).g⟩) i1) p)))
        (texture2 (addV2 (fitUVR uv s2 o2)
          (smulV2 (smulV2 (getRotM a2 ⟨(disp uv).r, (disp uv).g⟩) i2) (1 - p))))
        p ∧
    (slider2Frag texture1 texture2 disp s1 o1 s2 o2 i1 i2 a1 a2 p uv).r =
      (texture1 (addV2 (fitUVR uv s1 o1)
        (smulV2 (smulV2 (getRotM a1 ⟨(disp uv).r, (disp uv).g⟩) i1) p))).r * (1 - p) +
      (texture2 (addV2 (fitUVR uv s2 o2)
        (smulV2 (smulV2 (getRotM a2 ⟨(disp uv).r, (disp uv).g⟩) i2) (1 - p)))).r * p ∧
    (∀ angle : ℝ, effAngle2 angle none = -angle * 3 ∧
      effAngle2 angle none = -3 * effAngle1 angle none) ∧
    (∀ angle x : ℝ, effAngle1 angle (some x) = x ∧ effAngle2 angle (some x) = x) := by
  refine ⟨rfl, rfl, fun angle => ⟨rfl, ?_⟩, fun angle x => ⟨rfl, rfl⟩⟩
  simp only [effAngle1, effAngle2, Option.getD_none]
  ring

/-- Outcome of probing an image for its natural size (the `Image` object in
`getImageAspectRatio`): either it loads with a width and height, or it
errors. -/
inductive ImageLoad where
  | ok (w h : ℚ) : ImageLoad
  | err : ImageLoad
  deriving DecidableEq

/-- `getImageAspectRatio` (`ThreeImageSlider.tsx` lines 32-43, identical in
the other components): resolves `width/height` on load and 1.0 on error —
the promise always resolves (it installs both `onload` and `onerror`, so it
neither rejects nor blocks the pipeline). -/
def getImageAspectRatio : ImageLoad → ℚ
  | .ok w h => w / h
  | .err => 1

/-- The uniform slots written by `loadCurrentImages`
(`ThreeImageSlider.tsx` lines 191-220). -/
structure SlotUniforms where
  aspect1 : ℚ
  aspect2 : ℚ
  fit1 : FitParams
  fit2 : FitParams
  tex1 : Option ℕ
  tex2 : Option ℕ
  deriving DecidableEq

/-- One run of `loadCurrentImages` in the crossfade / noise-warp
components: both aspect ratios are resolved (1.0 on failure) and the fit
parameters recomputed, then the texture loads are NESTED — `uTex2` is
assigned only inside the success callback of the `uTex1` load
(`loader.load` installs no error callback, so `none` models a load that
never succeeds and leaves the slot at its previous value). -/
def loadCurrentImages (r1 r2 : ImageLoad) (t1 t2 : Option ℕ)
    (containerAspect : ℚ) (u : SlotUniforms) : SlotUniforms :=
  let a1 := getImageAspectRatio r1
  let a2 := getImageAspectRatio r2
  { aspect1 := a1
    aspect2 := a2
    fit1 := calculateFitParams a1 containerAspect
    fit2 := calculateFitParams a2 containerAspect
    tex1 := match t1 with
            | some tx => some tx
            | none => u.tex1
    tex2 := match t1 with
            | some _ =>
                match t2 with
                | some tx => some tx
                | none => u.tex2
            | none => u.tex2 }

/-- Texture requests issued by the nested load in one cycle: the current
image is always requested; the next image is requested only from inside the
success callback of the current image's load (`t1` is that load's
outcome). -/
def nestedLoadRequests (t1 : Option ℕ) : List (Fin 2) :=
  match t1 with
  | none => [0]
  | some _ => [0, 1]

/-- `ThreeImageSlider2.tsx` `loadCurrentImages` (lines 247-257) issues the
two texture loads independently and unconditionally. -/
def independentLoadRequests : List (Fin 2) := [0, 1]

/-- Texture slots after the independent loads of `ThreeImageSlider2.tsx`:
each slot is assigned from its own load outcome, regardless of the other. -/
def independentLoadSlots (t1 t2 u1 u2 : Option ℕ) : Option ℕ × Option ℕ :=
  ((match t1 with | some tx => some tx | none => u1),
   (match t2 with | some tx => some tx | none => u2))

/-- C8: when the aspect-ratio probe of the current image fails, the
resolved ratio is exactly 1.0 (a square), the fit parameters for that slot
are computed as `calculateFitParams 1 c`, and — if additionally that
image's texture load never succeeds — the texture slot keeps its previous
(unset) value. -/
theorem getImageAspectRatio_err_defaults (r2 : ImageLoad) (t2 : Option ℕ)
    (c : ℚ) (u : SlotUniforms) (hu : u.tex1 = none) :
    getImageAspectRatio ImageLoad.err = 1 ∧
    (loadCurrentImages ImageLoad.err r2 none t2 c u).aspect1 = 1 ∧
    (loadCurrentImages ImageLoad.err r2 none t2 c u).fit1 = calculateFitParams 1 c ∧
    (loadCurrentImages ImageLoad.err r2 none t2 c u).tex1 = none := by
  refine ⟨rfl, rfl, rfl, ?_⟩
  simp [loadCurrentImages, hu]

/-- C8 witness: instantiated with a failing second probe, no texture
outcomes and a 16:9 container. -/
theorem getImageAspectRatio_err_defaults_witness :
    (⟨1, 1, calculateFitParams 1 1, calculateFitParams 1 1, none, none⟩ :
        SlotUniforms).tex1 = none ∧
    (loadCurrentImages ImageLoad.err ImageLoad.err none none (16/9)
      ⟨1, 1, calculateFitParams 1 1, calculateFitParams 1 1, none, none⟩).aspect1 = 1 :=
  ⟨rfl,
    (getImageAspectRatio_err_defaults ImageLoad.err none (16/9)
      ⟨1, 1, calculateFitParams 1 1, calculateFitParams 1 1, none, none⟩ rfl).2.1⟩

/-- C10: in the crossfade and noise-warp components the next image's
texture is requested only inside the success callback of the current
image's load, so if the current load never succeeds the next request is
never issued and `uTex2` keeps its previous (unset) value; the
directional-displacement component instead issues both loads independently,
so its second slot is assigned even when the first load never succeeds. -/
theorem nestedLoad_vs_independentLoad (r1 r2 : ImageLoad) (t2 : Option ℕ)
    (c : ℚ) (u : SlotUniforms) (hu2 : u.tex2 = none) :
    ((loadCurrentImages r1 r2 none t2 c u).tex2 = none ∧
      nestedLoadRequests none = [0] ∧
      (1 : Fin 2) ∉ nestedLoadRequests none) ∧
    (independentLoadRequests = [0, 1] ∧
      ∀ k, (independentLoadSlots none (some k) u.tex1 u.tex2).2 = some k) := by
  refine ⟨⟨?_, rfl, by decide⟩, rfl, fun k => rfl⟩
  simp [loadCurrentImages, hu2]

/-- C10 witness: with both texture loads failing and empty previous slots,
the nested loader leaves `uTex2` unset. -/
theorem nestedLoad_vs_independentLoad_witness :
    (⟨1, 1, calculateFitParams 1 1, calculateFitParams 1 1, none, none⟩ :
        SlotUniforms).tex2 = none ∧
    (loadCurrentImages (ImageLoad.ok 4 3) ImageLoad.err none none (16/9)
      ⟨1, 1, calculateFitParams 1 1, calculateFitParams 1 1, none, none⟩).tex2 = none :=
  ⟨rfl,
    (nestedLoad_vs_independentLoad (ImageLoad.ok 4 3) ImageLoad.err none (16/9)
      ⟨1, 1, calculateFitParams 1 1, calculateFitParams 1 1, none, none⟩ rfl).1.1⟩

/-- Live callback sources of a mounted slider session: the
requestAnimationFrame loop, the autoplay interval timer (Variant B), and
whether the component is still mounted. -/
structure SessState where
  alive : Bool
  rafPending : Bool
  timerActive : Bool
  deriving DecidableEq

/-- Callbacks that can be delivered to the session. -/
inductive SessEv where
  | teardown
  | rafFire
  | timerFire
  | texLoadComplete
  deriving DecidableEq

/-- Effect of delivering one callback: the new state and whether the
callback mutated the shared uniforms object.  The cleanup functions call
`cancelAnimationFrame` and `clearInterval` (lines 179-186 of
`ThreeImageSlider.tsx`, lines 299-306 of `ThreeImageSlider2.tsx`), so a
cancelled frame or interval callback no longer runs; but the
`loader.load` success callbacks (lines 214-219) carry no unmount guard
and always write their texture uniform when the load completes. -/
def sessStep (s : SessState) (e : SessEv) : SessState × Bool :=
  match e with
  | .teardown => ({ alive := false, rafPending := false, timerActive := false }, false)
  | .rafFire => if s.rafPending then (s, true) else (s, false)
  | .timerFire => if s.timerActive then (s, true) else (s, false)
  | .texLoadComplete => (s, true)

/-- Running a trace of delivered callbacks. -/
def sessRun (s : SessState) : List SessEv → SessState
  | [] => s
  | e :: es => sessRun (sessStep s e).1 es

/-- The callbacks of a trace that mutate the shared uniforms. -/
def sessMutations (s : SessState) : List SessEv → List SessEv
  | [] => []
  | e :: es =>
      if (sessStep s e).2 then e :: sessMutations (sessStep s e).1 es
      else sessMutations (sessStep s e).1 es

/-- A torn-down session: unmounted, frame loop cancelled, interval timer
cleared. -/
def isDown (s : SessState) : Prop :=
  s.alive = false ∧ s.rafPending = false ∧ s.timerActive = false

lemma isDown_sessStep {s : SessState} (h : isDown s) (e : SessEv) :
    isDown (sessStep s e).1 := by
  obtain ⟨ha, hr, ht⟩ := h
  cases e with
  | teardown => exact ⟨rfl, rfl, rfl⟩
  | rafFire => simp only [sessStep, hr, Bool.false_eq_true, if_false]; exact ⟨ha, hr, ht⟩
  | timerFire => simp only [sessStep, ht, Bool.false_eq_true, if_false]; exact ⟨ha, hr, ht⟩
  | texLoadComplete => exact ⟨ha, hr, ht⟩

lemma isDown_sessRun {s : SessState} (h : isDown s) (evs : List SessEv) :
    isDown (sessRun s evs) := by
  induction evs generalizing s with
  | nil => exact h
  | cons e es ih => exact ih (isDown_sessStep h e)

lemma sessMutations_of_isDown {s : SessState} (h : isDown s) (evs : List SessEv) :
    ∀ e ∈ sessMutations s evs, e = SessEv.texLoadComplete := by
  induction evs generalizing s with
  | nil => intro e he; cases he
  | cons e es ih =>
      intro f hf
      obtain ⟨ha, hr, ht⟩ := h
      cases e with
      | teardown =>
          simp only [sessMutations, sessStep] at hf
          exact ih (by exact ⟨rfl, rfl, rfl⟩) f hf
      | rafFire =>
          simp only [sessMutations, sessStep, hr] at hf
          exact ih ⟨ha, hr, ht⟩ f (by simpa using hf)
      | timerFire =>
          simp only [sessMutations, sessStep, ht] at hf
          exact ih ⟨ha, hr, ht⟩ f (by simpa using hf)
      | texLoadComplete =>
          simp only [sessMutations, sessStep, if_true] at hf
          rw [List.mem_cons] at hf
          rcases hf with hf | hf
          · exact hf
          · exact ih ⟨ha, hr, ht⟩ f hf

/-- C9 counterexample: an in-flight texture-load completion delivered right
after teardown still mutates the shared uniforms — the load callbacks are
not guarded against unmount, so it is false that no texture-load callback
ever mutates the uniforms after the session is destroyed. -/
theorem texLoad_after_teardown_mutates :
    sessMutations ⟨true, true, true⟩ [SessEv.teardown, SessEv.texLoadComplete] =
      [SessEv.texLoadComplete] := by
  decide

/-- C9 amended: teardown cancels the frame loop and the interval timer, and
from a torn-down session a delivered frame or timer callback never mutates
the uniforms (and the session stays down under any further trace); but
texture-load completions are unguarded — every uniform mutation in a
post-teardown trace comes from a texture-load completion, and such a
completion does mutate the uniforms. -/
theorem teardown_guarantees (s0 s : SessState) (evs : List SessEv) (h : isDown s) :
    isDown (sessStep s0 SessEv.teardown).1 ∧
    (sessStep s SessEv.rafFire).2 = false ∧
    (sessStep s SessEv.timerFire).2 = false ∧
    isDown (sessRun s evs) ∧
    (∀ e ∈ sessMutations s evs, e = SessEv.texLoadComplete) ∧
    (sessStep s SessEv.texLoadComplete).2 = true := by
  obtain ⟨ha, hr, ht⟩ := h
  exact ⟨⟨rfl, rfl, rfl⟩, by simp [sessStep, hr], by simp [sessStep, ht],
    isDown_sessRun ⟨ha, hr, ht⟩ evs, sessMutations_of_isDown ⟨ha, hr, ht⟩ evs, rfl⟩

/-- C9 amended witness: a torn-down session delivered a frame callback, a
timer callback and a texture-load completion — only the texture-load
completion mutates. -/
theorem teardown_guarantees_witness :
    isDown ⟨false, false, false⟩ ∧
    (sessStep ⟨false, false, false⟩ SessEv.rafFire).2 = false ∧
    (∀ e ∈ sessMutations ⟨false, false, false⟩
        [SessEv.rafFire, SessEv.timerFire, SessEv.texLoadComplete],
      e = SessEv.texLoadComplete) :=
  ⟨⟨rfl, rfl, rfl⟩,
    (teardown_guarantees ⟨true, true, true⟩ ⟨false, false, false⟩
      [SessEv.rafFire, SessEv.timerFire, SessEv.texLoadComplete] ⟨rfl, rfl, rfl⟩).2.1,
    (teardown_guarantees ⟨true, true, true⟩ ⟨false, false, false⟩
      [SessEv.rafFire, SessEv.timerFire, SessEv.texLoadComplete] ⟨rfl, rfl, rfl⟩).2.2.2.2.1⟩
